import Mathlib

/-!
Verification development for the "Douglass The Keeper" UDP game server
(`src/server/game_server.c`).  The server is shallowly embedded: machine
floats become exact rationals, the global mutable arrays become lists inside
an explicit `ServerState`, each `sendto` call becomes an element of an output
`List Send`, and the libc sources of nondeterminism (`rand`-driven spawn
positions and roam directions) together with the transcendental libm
functions (`sqrt`, `atan2`) are supplied by an explicit environment `Env`;
the server state carries the index of the next pseudo-random draw.  Wall
clock (`time(NULL)`) and monotonic-clock deltas are passed as parameters.
Every definition mirrors the corresponding C function; comments cite the
source line numbers.
-/

namespace LoB

/-- MAX_PLAYERS from game_server.c line 26. -/
def MAX_PLAYERS : Nat := 32

/-- MAX_ENTITIES from game_server.c line 27. -/
def MAX_ENTITIES : Nat := 64

/-- PLAYER_TIMEOUT_SEC from game_server.c line 30 (seconds). -/
def PLAYER_TIMEOUT_SEC : Int := 10

/-- Modulus of a 32-bit unsigned counter (`uint32_t` arithmetic wraps). -/
def U32 : Nat := 4294967296

/-- Player state flag STATE_IDLE (line 35). -/
def STATE_IDLE : Nat := 0

/-- Bobba state BOBBA_ROAMING (line 68). -/
def BOBBA_ROAMING : Nat := 0

/-- Bobba state BOBBA_CHASING (line 69). -/
def BOBBA_CHASING : Nat := 1

/-- Bobba state BOBBA_ATTACKING (line 70). -/
def BOBBA_ATTACKING : Nat := 2

/-- Bobba state BOBBA_IDLE (line 71). -/
def BOBBA_IDLE : Nat := 3

/-- Bobba state BOBBA_STUNNED (line 72). -/
def BOBBA_STUNNED : Nat := 4

/-- Entity type tag ENTITY_BOBBA (line 63). -/
def ENTITY_BOBBA : Nat := 0

/-- Entity type tag ENTITY_DRAGON (line 64). -/
def ENTITY_DRAGON : Nat := 1

/-- BOBBA_DETECTION_RADIUS (line 75), as an exact rational. -/
def BOBBA_DETECTION_RADIUS : ℚ := 10

/-- BOBBA_LOSE_RADIUS (line 76). -/
def BOBBA_LOSE_RADIUS : ℚ := 20

/-- BOBBA_ATTACK_DISTANCE (line 77). -/
def BOBBA_ATTACK_DISTANCE : ℚ := 2

/-- BOBBA_ROAM_SPEED (line 78). -/
def BOBBA_ROAM_SPEED : ℚ := 2

/-- BOBBA_CHASE_SPEED (line 79). -/
def BOBBA_CHASE_SPEED : ℚ := 5

/-- BOBBA_ROAM_CHANGE_TIME (line 81). -/
def BOBBA_ROAM_CHANGE_TIME : ℚ := 3

/-- BOBBA_ATTACK_DURATION (line 82): 1.5 seconds. -/
def BOBBA_ATTACK_DURATION : ℚ := 3/2

/-- BOBBA_ATTACK_DAMAGE (line 83). -/
def BOBBA_ATTACK_DAMAGE : ℚ := 70

/-- BOBBA_KNOCKBACK_FORCE (line 84). -/
def BOBBA_KNOCKBACK_FORCE : ℚ := 12

/-- BOBBA_HIT_WINDOW_START (line 85): 30% into the attack animation. -/
def BOBBA_HIT_WINDOW_START : ℚ := 3/10

/-- BOBBA_HIT_WINDOW_END (line 86): 70% into the attack animation. -/
def BOBBA_HIT_WINDOW_END : ℚ := 7/10

/-- Size in bytes of the packed `PacketHeader` (lines 123-127):
1-byte type + 4-byte sequence + 4-byte player_id. -/
def packetHeaderSize : Nat := 1 + 4 + 4

/-- Size in bytes of the packed `PlayerData` record (lines 110-120):
identifier 4, position 12, yaw 4, state 1, combat mode 1, class 1,
health 4, animation name 32, active 1. -/
def playerDataSize : Nat := 4 + 12 + 4 + 1 + 1 + 1 + 4 + 32 + 1

/-- Size in bytes of the packed `WorldStatePacket` (lines 149-154):
header, 4-byte state_seq, 1-byte player_count, MAX_PLAYERS records.
`broadcast_world_state` always sends this full size (line 1117). -/
def worldStatePacketSize : Nat := packetHeaderSize + 4 + 1 + MAX_PLAYERS * playerDataSize

/-- Size in bytes of the packed `EntityData` record (lines 157-166):
type 1, id 4, position 12, yaw 4, state 1, health 4, extra1 4, extra2 4. -/
def entityDataSize : Nat := 1 + 4 + 12 + 4 + 1 + 4 + 4 + 4

/-- Size in bytes of the packed `JoinAckPacket` (lines 142-146). -/
def joinAckPacketSize : Nat := packetHeaderSize + 4 + playerDataSize

/-- Size in bytes of the packed `EntityDamagePacket` (lines 193-198). -/
def entityDamagePacketSize : Nat := packetHeaderSize + 4 + 4 + 4

/-- Size in bytes of the packed `PlayerDamagePacket` (lines 201-207). -/
def playerDamagePacketSize : Nat := packetHeaderSize + 4 + 4 + 4 + 12

/-- Size in bytes of the packed `GameRestartPacket` (lines 210-213). -/
def gameRestartPacketSize : Nat := packetHeaderSize + 4

/-- Size in bytes of the packed `ArrowSpawnPacket` (lines 176-182). -/
def arrowSpawnPacketSize : Nat := packetHeaderSize + 4 + 12 + 12 + 4

/-- Size in bytes of the packed `ArrowHitPacket` (lines 185-190). -/
def arrowHitPacketSize : Nat := packetHeaderSize + 4 + 12 + 4

/-- A UDP endpoint: the pair of `sin_addr.s_addr` and `sin_port` that the
server compares when matching clients (for example lines 334-336). -/
structure Addr where
  ip : Nat
  port : Nat
  deriving DecidableEq, Repr

/-- Endpoint comparison exactly as in the C source: both the address and the
port must agree (for example `find_player_by_addr`, lines 334-336). -/
def sameAddr (a b : Addr) : Bool :=
  a.ip == b.ip && a.port == b.port

/-- The packed on-wire `PlayerData` record (lines 110-120).  Floats are
modelled as exact rationals; the fixed 32-byte animation name is a string. -/
structure PlayerData where
  player_id : Nat
  pos_x : ℚ
  pos_y : ℚ
  pos_z : ℚ
  rot_y : ℚ
  state : Nat
  combat_mode : Nat
  character_class : Nat
  health : ℚ
  anim_name : String
  active : Nat
  deriving DecidableEq, Repr

/-- Server-side player session (struct `Player`, lines 218-225). -/
structure Player where
  player_id : Nat
  name : String
  addr : Addr
  last_seen : Int
  data : PlayerData
  active : Bool
  deriving DecidableEq, Repr

/-- Spectator entry (struct `Spectator`, lines 228-232). -/
structure Spectator where
  addr : Addr
  last_seen : Int
  active : Bool
  deriving DecidableEq, Repr

/-- Server-side Bobba entity (struct `ServerBobba`, lines 237-253). -/
structure ServerBobba where
  entity_id : Nat
  pos_x : ℚ
  pos_y : ℚ
  pos_z : ℚ
  rot_y : ℚ
  state : Nat
  health : ℚ
  active : Bool
  target_player_id : Nat
  roam_dir_x : ℚ
  roam_dir_z : ℚ
  roam_timer : ℚ
  attack_timer : ℚ
  attack_start_time : ℚ
  stun_timer : ℚ
  has_hit_this_attack : Bool
  deriving DecidableEq, Repr

/-- Server-side Dragon entity (struct `ServerDragon`, lines 256-275). -/
structure ServerDragon where
  entity_id : Nat
  pos_x : ℚ
  pos_y : ℚ
  pos_z : ℚ
  rot_y : ℚ
  state : Nat
  health : ℚ
  active : Bool
  patrol_angle : ℚ
  patrol_center_x : ℚ
  patrol_center_z : ℚ
  laps_completed : Nat
  wait_timer : ℚ
  attack_timer : ℚ
  target_player_id : Nat
  deriving DecidableEq, Repr

/-- The on-wire `EntityData` record of an entity-state packet (lines
157-166). -/
structure EntityRec where
  entity_type : Nat
  entity_id : Nat
  pos_x : ℚ
  pos_y : ℚ
  pos_z : ℚ
  rot_y : ℚ
  state : Nat
  health : ℚ
  extra1 : Nat
  extra2 : ℚ
  deriving DecidableEq, Repr

/-- A server-originated message, one constructor per packet the server
builds.  The first `Nat` of each constructor is the header sequence field. -/
inductive OutMsg where
  | joinAck (seq : Nat) (pid : Nat) (assignedId : Nat) (data : PlayerData)
  | worldState (seq : Nat) (stateSeq : Nat) (count : Nat) (records : List PlayerData)
  | entityState (seq : Nat) (count : Nat) (entities : List EntityRec)
  | pong (seq : Nat) (pid : Nat)
  | spectateAck (seq : Nat)
  | playerDamage (seq : Nat) (target : Nat) (damage : ℚ) (attackerEntity : Nat)
      (kx : ℚ) (ky : ℚ) (kz : ℚ)
  | gameRestart (seq : Nat) (reason : Nat)
  | arrowSpawnRelay (seq : Nat) (pid : Nat) (arrowId : Nat)
      (px py pz dx dy dz : ℚ) (shooter : Nat)
  | arrowHitRelay (seq : Nat) (pid : Nat) (arrowId : Nat)
      (hx hy hz : ℚ) (hitEntity : Nat)
  | entityDamageRelay (seq : Nat) (pid : Nat) (entityId : Nat)
      (damage : ℚ) (attacker : Nat)
  deriving DecidableEq, Repr

/-- Header sequence field of a server-originated message. -/
def OutMsg.seqOf : OutMsg → Nat
  | .joinAck s _ _ _ => s
  | .worldState s _ _ _ => s
  | .entityState s _ _ => s
  | .pong s _ => s
  | .spectateAck s => s
  | .playerDamage s _ _ _ _ _ _ => s
  | .gameRestart s _ => s
  | .arrowSpawnRelay s _ _ _ _ _ _ _ _ _ => s
  | .arrowHitRelay s _ _ _ _ _ _ => s
  | .entityDamageRelay s _ _ _ _ => s

/-- Whether a message is a relayed entity-damage packet. -/
def OutMsg.isEntityDamage : OutMsg → Bool
  | .entityDamageRelay _ _ _ _ _ => true
  | _ => false

/-- Whether a message is a world-state snapshot. -/
def OutMsg.isWorldState : OutMsg → Bool
  | .worldState _ _ _ _ => true
  | _ => false

/-- Player-count field of a world-state message, if it is one. -/
def OutMsg.worldStateCount : OutMsg → Option Nat
  | .worldState _ _ c _ => some c
  | _ => none

/-- Whether a message is a join acknowledgement. -/
def OutMsg.isJoinAck : OutMsg → Bool
  | .joinAck _ _ _ _ => true
  | _ => false

/-- Whether a message is a game-restart broadcast. -/
def OutMsg.isGameRestart : OutMsg → Bool
  | .gameRestart _ _ => true
  | _ => false

/-- One `sendto` call: destination endpoint, the message, and the byte
length passed to `sendto`. -/
structure Send where
  dest : Addr
  msg : OutMsg
  len : Nat
  deriving DecidableEq, Repr

/-- A well-formed inbound datagram after the dispatcher's minimum-length
checks (main loop, lines 1483-1552); one constructor per handled type. -/
inductive InPacket where
  | join (seq : Nat) (pid : Nat) (name : String)
  | update (seq : Nat) (pid : Nat) (data : PlayerData)
  | leave (seq : Nat) (pid : Nat)
  | ping (seq : Nat) (pid : Nat)
  | entityDamage (seq : Nat) (pid : Nat) (entityId : Nat) (damage : ℚ) (attacker : Nat)
  | arrowSpawn (seq : Nat) (pid : Nat) (arrowId : Nat)
      (px py pz dx dy dz : ℚ) (shooter : Nat)
  | arrowHit (seq : Nat) (pid : Nat) (arrowId : Nat) (hx hy hz : ℚ) (hitEntity : Nat)
  | heartbeat (seq : Nat) (pid : Nat)
  | spectate (seq : Nat) (pid : Nat)
  | gameRestart (seq : Nat) (pid : Nat) (reason : Nat)
  deriving DecidableEq, Repr

/-- Whether an inbound packet is a join request. -/
def InPacket.isJoin : InPacket → Bool
  | .join _ _ _ => true
  | _ => false

/-- The global mutable server state (lines 280-289): the fixed arrays become
lists (an index is a slot), the `uint32_t` counters wrap at `U32`, and
`rngIdx` counts how many pseudo-random draws have been consumed. -/
structure ServerState where
  players : List Player
  spectators : List Spectator
  bobbas : List ServerBobba
  dragons : List ServerDragon
  next_player_id : Nat
  next_entity_id : Nat
  state_sequence : Nat
  test_multiplayer : Bool
  rngIdx : Nat
  deriving DecidableEq, Repr

/-- Environment supplying the effects the C code takes from libc: the
`rand()`-derived spawn positions of `generate_spawn_position` (lines
316-329), the `rand()`-derived roam directions of
`bobba_pick_roam_direction` (lines 438-443), and the libm `sqrt` and
`atan2`.  Indexed draws model the successive results of the process RNG. -/
structure Env where
  spawnPos : Nat → ℚ × ℚ × ℚ
  roamDir : Nat → ℚ × ℚ
  sqrtQ : ℚ → ℚ
  atan2Q : ℚ → ℚ → ℚ

/-- Exact rational square root used by the sample environment: exact
whenever numerator and denominator are perfect squares. -/
def ratSqrt (q : ℚ) : ℚ :=
  (Nat.sqrt q.num.toNat : ℚ) / (Nat.sqrt q.den : ℚ)

/-- Sample environment used by the concrete evaluations below. -/
def env0 : Env where
  spawnPos := fun _ => (0, 2, 0)
  roamDir := fun _ => (1, 0)
  sqrtQ := ratSqrt
  atan2Q := fun _ _ => 0

/-- Apply `f` to the first list element satisfying `p`, leaving the rest
unchanged.  This is how every find-then-mutate loop of the C source acts on
its array: the scan stops at the first hit. -/
def updateFirst {α : Type} (p : α → Bool) (f : α → α) : List α → List α
  | [] => []
  | x :: xs => if p x then f x :: xs else x :: updateFirst p f xs

/-- Predicate matched by `find_player_by_addr` (lines 332-341). -/
def playerAddrPred (addr : Addr) (p : Player) : Bool :=
  p.active && sameAddr p.addr addr

/-- find_player_by_addr (lines 332-341): first active player bound to the
endpoint. -/
def find_player_by_addr (ps : List Player) (addr : Addr) : Option Player :=
  ps.find? (playerAddrPred addr)

/-- Predicate matched by `find_player_by_id` (lines 344-351). -/
def playerIdPred (id : Nat) (p : Player) : Bool :=
  p.active && p.player_id == id

/-- find_player_by_id (lines 344-351): first active player with the
assigned identifier. -/
def find_player_by_id (ps : List Player) (id : Nat) : Option Player :=
  ps.find? (playerIdPred id)

/-- find_free_slot (lines 354-361): index of the first inactive slot. -/
def find_free_slot (ps : List Player) : Option Nat :=
  ps.findIdx? (fun p => !p.active)

/-- count_active_players (lines 364-370). -/
def count_active_players (s : ServerState) : Nat :=
  (s.players.filter (fun p => p.active)).length

/-- distance_3d (lines 408-413), with the environment's square root. -/
def distance_3d (env : Env) (x1 y1 z1 x2 y2 z2 : ℚ) : ℚ :=
  env.sqrtQ ((x2 - x1) * (x2 - x1) + (y2 - y1) * (y2 - y1) + (z2 - z1) * (z2 - z1))

/-- find_nearest_player (lines 416-435): linear scan keeping the strictly
nearest active player; the reported distance starts at 999999 and is
returned even when no player is active. -/
def find_nearest_player (env : Env) (ps : List Player) (x y z : ℚ) :
    Option Player × ℚ :=
  ps.foldl
    (fun acc p =>
      if p.active then
        let d := distance_3d env x y z p.data.pos_x p.data.pos_y p.data.pos_z
        if d < acc.2 then (some p, d) else acc
      else acc)
    (none, 999999)

/-- bobba_pick_roam_direction (lines 438-443): draw a fresh roam direction
from the RNG stream and reset the roam timer. -/
def bobba_pick_roam_direction (env : Env) (s : ServerState) (b : ServerBobba) :
    ServerBobba × ServerState :=
  let d := env.roamDir s.rngIdx
  ({ b with roam_dir_x := d.1, roam_dir_z := d.2, roam_timer := BOBBA_ROAM_CHANGE_TIME },
   { s with rngIdx := s.rngIdx + 1 })

/-- broadcast_world_state (lines 1095-1130): stamp the pre-incremented
shared counter into both the header and `state_seq`, collect up to
MAX_PLAYERS active player records, and send the full fixed-size packet
(`sizeof(packet)`, line 1117) to every active player and spectator. -/
def broadcast_world_state (s : ServerState) : ServerState × List Send :=
  let seq := (s.state_sequence + 1) % U32
  let recs := ((s.players.filter (fun p => p.active)).map (fun p => p.data)).take MAX_PLAYERS
  let msg := OutMsg.worldState seq seq recs.length recs
  let toPlayers := (s.players.filter (fun p => p.active)).map
    (fun p => Send.mk p.addr msg worldStatePacketSize)
  let toSpecs := (s.spectators.filter (fun sp => sp.active)).map
    (fun sp => Send.mk sp.addr msg worldStatePacketSize)
  ({ s with state_sequence := seq }, toPlayers ++ toSpecs)

/-- Entity record of an active Bobba inside an entity-state packet (lines
736-744); the extras stay at their `memset` zero. -/
def bobbaRec (b : ServerBobba) : EntityRec :=
  ⟨ENTITY_BOBBA, b.entity_id, b.pos_x, b.pos_y, b.pos_z, b.rot_y, b.state, b.health, 0, 0⟩

/-- Entity record of an active Dragon inside an entity-state packet (lines
751-761): extras carry the lap count and patrol angle. -/
def dragonRec (d : ServerDragon) : EntityRec :=
  ⟨ENTITY_DRAGON, d.entity_id, d.pos_x, d.pos_y, d.pos_z, d.rot_y, d.state, d.health,
    d.laps_completed, d.patrol_angle⟩

/-- broadcast_entity_state (lines 710-784): if no entity is active return
without sending; otherwise stamp the counter, pack active Bobbas then
Dragons (capped at MAX_ENTITIES), and send exactly
`header + 1 + count * entityDataSize` bytes to every active player and
spectator. -/
def broadcast_entity_state (s : ServerState) : ServerState × List Send :=
  let n := (s.bobbas.filter (fun b => b.active)).length
    + (s.dragons.filter (fun d => d.active)).length
  if n = 0 then (s, [])
  else
    let seq := (s.state_sequence + 1) % U32
    let ents := (((s.bobbas.filter (fun b => b.active)).map bobbaRec)
      ++ ((s.dragons.filter (fun d => d.active)).map dragonRec)).take MAX_ENTITIES
    let len := packetHeaderSize + 1 + ents.length * entityDataSize
    let msg := OutMsg.entityState seq ents.length ents
    let toPlayers := (s.players.filter (fun p => p.active)).map
      (fun p => Send.mk p.addr msg len)
    let toSpecs := (s.spectators.filter (fun sp => sp.active)).map
      (fun sp => Send.mk sp.addr msg len)
    ({ s with state_sequence := seq }, toPlayers ++ toSpecs)

/-- send_player_damage (lines 787-812): deliver a player-damage packet to
the target if it is an active player, stamping the pre-incremented shared
counter; otherwise do nothing. -/
def send_player_damage (s : ServerState) (target : Nat) (damage : ℚ)
    (attackerEntity : Nat) (kx ky kz : ℚ) : ServerState × List Send :=
  match find_player_by_id s.players target with
  | some t =>
      let seq := (s.state_sequence + 1) % U32
      ({ s with state_sequence := seq },
        [Send.mk t.addr (OutMsg.playerDamage seq target damage attackerEntity kx ky kz)
          playerDamagePacketSize])
  | none => (s, [])

/-- Helper of respawn_all_bobbas (lines 616-647): reset every Bobba slot
that was ever used (`entity_id` nonzero), drawing a fresh roam direction
per reset; `attack_start_time` is the one field the C code does not reset. -/
def respawnBobbasGo (env : Env) : List ServerBobba → Nat → List ServerBobba × Nat
  | [], i => ([], i)
  | b :: bs, i =>
    if b.entity_id == 0 then
      let r := respawnBobbasGo env bs i
      (b :: r.1, r.2)
    else
      let d := env.roamDir i
      let b2 := { b with
        pos_x := 5, pos_y := 0, pos_z := 5, rot_y := 0,
        state := BOBBA_ROAMING, health := 100, active := true,
        target_player_id := 0, has_hit_this_attack := false,
        stun_timer := 0, attack_timer := 0,
        roam_dir_x := d.1, roam_dir_z := d.2, roam_timer := BOBBA_ROAM_CHANGE_TIME }
      let r := respawnBobbasGo env bs (i + 1)
      (b2 :: r.1, r.2)

/-- respawn_all_bobbas (lines 616-647). -/
def respawn_all_bobbas (env : Env) (s : ServerState) : ServerState :=
  let r := respawnBobbasGo env s.bobbas s.rngIdx
  { s with bobbas := r.1, rngIdx := r.2 }

/-- Helper of respawn_all_players (lines 650-669): every active player gets
full health, idle state and a fresh random spawn position. -/
def respawnPlayersGo (env : Env) : List Player → Nat → List Player × Nat
  | [], i => ([], i)
  | p :: ps, i =>
    if p.active then
      let sp := env.spawnPos i
      let p2 := { p with data := { p.data with
        health := 100, state := STATE_IDLE,
        pos_x := sp.1, pos_y := sp.2.1, pos_z := sp.2.2 } }
      let r := respawnPlayersGo env ps (i + 1)
      (p2 :: r.1, r.2)
    else
      let r := respawnPlayersGo env ps i
      (p :: r.1, r.2)

/-- respawn_all_players (lines 650-669). -/
def respawn_all_players (env : Env) (s : ServerState) : ServerState :=
  let r := respawnPlayersGo env s.players s.rngIdx
  { s with players := r.1, rngIdx := r.2 }

/-- handle_game_restart (lines 672-707): respawn all Bobbas and players,
broadcast a game-restart packet (counter-stamped, sender zero) to every
active player, then immediately broadcast entity state and world state.
The requester identifier is only logged. -/
def handle_game_restart (env : Env) (s : ServerState) (reason : Nat)
    (requester : Nat) : ServerState × List Send :=
  let _ := requester
  let s1 := respawn_all_bobbas env s
  let s2 := respawn_all_players env s1
  let seq := (s2.state_sequence + 1) % U32
  let s3 := { s2 with state_sequence := seq }
  let restartSends := (s3.players.filter (fun p => p.active)).map
    (fun p => Send.mk p.addr (OutMsg.gameRestart seq reason) gameRestartPacketSize)
  let r4 := broadcast_entity_state s3
  let r5 := broadcast_world_state r4.1
  (r5.1, restartSends ++ r4.2 ++ r5.2)

/-- Predicate of the Bobba damage scan (line 820). -/
def bobbaIdPred (entityId : Nat) (b : ServerBobba) : Bool :=
  b.active && b.entity_id == entityId

/-- Predicate of the Dragon damage scan (line 847). -/
def dragonIdPred (entityId : Nat) (d : ServerDragon) : Bool :=
  d.active && d.entity_id == entityId

/-- handle_entity_damage_server (lines 815-861): the first active Bobba
with the identifier takes the damage, is stunned for 0.5 s and retargets
the attacker; on non-positive health it is deactivated and the server
triggers a global restart with reason 1.  Only when no Bobba matches is the
Dragon table scanned: a matching Dragon merely loses health and is
deactivated on non-positive health, with no restart and no send. -/
def handle_entity_damage_server (env : Env) (s : ServerState) (entityId : Nat)
    (damage : ℚ) (attacker : Nat) : ServerState × List Send :=
  match s.bobbas.find? (bobbaIdPred entityId) with
  | some b =>
      let b2 := { b with
        health := b.health - damage, stun_timer := 1/2,
        state := BOBBA_STUNNED, target_player_id := attacker }
      if b2.health ≤ 0 then
        let b3 := { b2 with active := false }
        let s2 := { s with bobbas := updateFirst (bobbaIdPred entityId) (fun _ => b3) s.bobbas }
        handle_game_restart env s2 1 0
      else
        ({ s with bobbas := updateFirst (bobbaIdPred entityId) (fun _ => b2) s.bobbas }, [])
  | none =>
      match s.dragons.find? (dragonIdPred entityId) with
      | some d =>
          let d2 := { d with health := d.health - damage }
          let d3 := if d2.health ≤ 0 then { d2 with active := false } else d2
          ({ s with dragons := updateFirst (dragonIdPred entityId) (fun _ => d3) s.dragons }, [])
      | none => (s, [])

/-- Tail of the attacking branch (lines 505-508): write back the
decremented attack timer and, when it has run out, return to chasing. -/
def bobba_attack_tail (t : ℚ) :
    ServerBobba × ServerState × List Send → ServerBobba × ServerState × List Send
  | (b1, s1, out1) =>
      let b2 := { b1 with attack_timer := t }
      if t ≤ 0 then ({ b2 with state := BOBBA_CHASING }, s1, out1)
      else (b2, s1, out1)

/-- The BOBBA_ATTACKING branch of update_bobba_ai (lines 465-509): decrement
the attack timer; if the hit window [0.30, 0.70] of attack progress is
reached, the once-per-swing flag is clear, and the bound target is active
and within twice the attack distance, set the flag and send one
player-damage message whose horizontal knockback is the normalized vector
from the Bobba to the target (normalized only when its length exceeds
0.01) and whose vertical component is 0.3, all scaled by the knockback
force; finally, the timer tail runs. -/
def bobba_attacking_step (env : Env) (s : ServerState) (b : ServerBobba) (delta : ℚ) :
    ServerBobba × ServerState × List Send :=
  let t := b.attack_timer - delta
  let progress := 1 - t / b.attack_start_time
  bobba_attack_tail t <|
    if b.has_hit_this_attack = false ∧ BOBBA_HIT_WINDOW_START ≤ progress ∧
        progress ≤ BOBBA_HIT_WINDOW_END ∧ b.target_player_id ≠ 0 then
      match find_player_by_id s.players b.target_player_id with
      | some target =>
          if target.active then
            let dist := distance_3d env b.pos_x b.pos_y b.pos_z
              target.data.pos_x target.data.pos_y target.data.pos_z
            if dist ≤ BOBBA_ATTACK_DISTANCE * 2 then
              let dx0 := target.data.pos_x - b.pos_x
              let dz0 := target.data.pos_z - b.pos_z
              let len := env.sqrtQ (dx0 * dx0 + dz0 * dz0)
              let dx := if 1/100 < len then dx0 / len else dx0
              let dz := if 1/100 < len then dz0 / len else dz0
              let b1 := { b with has_hit_this_attack := true }
              let r := send_player_damage s b.target_player_id BOBBA_ATTACK_DAMAGE
                b.entity_id (dx * BOBBA_KNOCKBACK_FORCE) ((3/10) * BOBBA_KNOCKBACK_FORCE)
                (dz * BOBBA_KNOCKBACK_FORCE)
              (b1, r.1, r.2)
            else (b, s, [])
          else (b, s, [])
      | none => (b, s, [])
    else (b, s, [])

/-- Target retention, acquisition, and the roaming and chasing movement of
update_bobba_ai (lines 511-601): drop the target when it is gone or beyond
the lose radius, otherwise acquire the nearest player within the detection
radius; then move according to the state machine. -/
def bobba_seek_and_move (env : Env) (s : ServerState) (b : ServerBobba) (delta : ℚ) :
    ServerBobba × ServerState × List Send :=
  let r1 : ServerBobba × ServerState × Option Player × ℚ :=
    if b.target_player_id ≠ 0 then
      match find_player_by_id s.players b.target_player_id with
      | some t =>
          if t.active then
            let d := distance_3d env b.pos_x b.pos_y b.pos_z
              t.data.pos_x t.data.pos_y t.data.pos_z
            if BOBBA_LOSE_RADIUS < d then
              let pr := bobba_pick_roam_direction env s
                { b with target_player_id := 0, state := BOBBA_ROAMING }
              (pr.1, pr.2, none, d)
            else (b, s, some t, d)
          else ({ b with target_player_id := 0 }, s, none, 999999)
      | none => ({ b with target_player_id := 0 }, s, none, 999999)
    else (b, s, none, 999999)
  let b1 := r1.1
  let s1 := r1.2.1
  let r2 : ServerBobba × Option Player × ℚ :=
    if b1.target_player_id == 0 then
      let nr := find_nearest_player env s1.players b1.pos_x b1.pos_y b1.pos_z
      match nr.1 with
      | some n =>
          if nr.2 ≤ BOBBA_DETECTION_RADIUS then
            ({ b1 with target_player_id := n.player_id, state := BOBBA_CHASING },
             some n, nr.2)
          else (b1, none, nr.2)
      | none => (b1, none, nr.2)
    else (b1, r1.2.2.1, r1.2.2.2)
  let b2 := r2.1
  if b2.state == BOBBA_ROAMING then
    let b3 := { b2 with
      pos_x := b2.pos_x + b2.roam_dir_x * BOBBA_ROAM_SPEED * delta,
      pos_z := b2.pos_z + b2.roam_dir_z * BOBBA_ROAM_SPEED * delta,
      rot_y := env.atan2Q b2.roam_dir_x b2.roam_dir_z,
      roam_timer := b2.roam_timer - delta }
    if b3.roam_timer ≤ 0 then
      let pr := bobba_pick_roam_direction env s1 b3
      (pr.1, pr.2, [])
    else (b3, s1, [])
  else if b2.state == BOBBA_CHASING then
    match r2.2.1 with
    | none => ({ b2 with state := BOBBA_ROAMING }, s1, [])
    | some t =>
        if r2.2.2 ≤ BOBBA_ATTACK_DISTANCE then
          ({ b2 with
            state := BOBBA_ATTACKING, attack_timer := BOBBA_ATTACK_DURATION,
            attack_start_time := BOBBA_ATTACK_DURATION,
            has_hit_this_attack := false }, s1, [])
        else
          let dx0 := t.data.pos_x - b2.pos_x
          let dz0 := t.data.pos_z - b2.pos_z
          let len := env.sqrtQ (dx0 * dx0 + dz0 * dz0)
          if 1/10 < len then
            ({ b2 with
              pos_x := b2.pos_x + dx0 / len * BOBBA_CHASE_SPEED * delta,
              pos_z := b2.pos_z + dz0 / len * BOBBA_CHASE_SPEED * delta,
              rot_y := env.atan2Q (dx0 / len) (dz0 / len) }, s1, [])
          else (b2, s1, [])
  else (b2, s1, [])

/-- update_bobba_ai (lines 446-602): inactive Bobbas do nothing; the
multiplayer-test mode forces idle; a positive stun timer counts down and on
expiry resumes chasing (if a target is bound) or roaming; an attacking
Bobba runs the attack branch; otherwise the Bobba seeks a target and
moves. -/
def update_bobba_ai (env : Env) (s : ServerState) (b : ServerBobba) (delta : ℚ) :
    ServerBobba × ServerState × List Send :=
  if b.active = false then (b, s, [])
  else if s.test_multiplayer then ({ b with state := BOBBA_IDLE }, s, [])
  else if 0 < b.stun_timer then
    let st := b.stun_timer - delta
    if st ≤ 0 then
      ({ b with
        stun_timer := st,
        state := if b.target_player_id ≠ 0 then BOBBA_CHASING else BOBBA_ROAMING },
       s, [])
    else ({ b with stun_timer := st }, s, [])
  else if b.state = BOBBA_ATTACKING then bobba_attacking_step env s b delta
  else bobba_seek_and_move env s b delta

/-- handle_join (lines 1133-1204): deactivate a matching spectator
(promotion), refresh `last_seen` on reconnect from a known endpoint,
reject silently when the table is full, otherwise allocate the next
identifier, create the session at the first free slot, send a join-ack
whose header sequence is the wall-clock time, and broadcast world state. -/
def handle_join (env : Env) (s : ServerState) (name : String) (addr : Addr)
    (now : Int) : ServerState × List Send :=
  let specs1 := updateFirst (fun sp => sp.active && sameAddr sp.addr addr)
    (fun sp => { sp with active := false }) s.spectators
  let s0 := { s with spectators := specs1 }
  match find_player_by_addr s0.players addr with
  | some _ =>
      let ps1 := updateFirst (playerAddrPred addr)
        (fun p => { p with last_seen := now }) s0.players
      ({ s0 with players := ps1 }, [])
  | none =>
      match find_free_slot s0.players with
      | none => (s0, [])
      | some _ =>
          let pid := s0.next_player_id
          let sp := env.spawnPos s0.rngIdx
          let data : PlayerData := {
            player_id := pid, pos_x := sp.1, pos_y := sp.2.1, pos_z := sp.2.2,
            rot_y := 0, state := STATE_IDLE, combat_mode := 1, character_class := 1,
            health := 100, anim_name := "Idle", active := 1 }
          let newP : Player := {
            player_id := pid, name := name, addr := addr, last_seen := now,
            data := data, active := true }
          let s1 := { s0 with
            players := updateFirst (fun p => !p.active) (fun _ => newP) s0.players,
            next_player_id := (s0.next_player_id + 1) % U32,
            rngIdx := s0.rngIdx + 1 }
          let ackSeq := (now % ((U32 : Nat) : Int)).toNat
          let ack := Send.mk addr (OutMsg.joinAck ackSeq pid pid data) joinAckPacketSize
          let r := broadcast_world_state s1
          (r.1, ack :: r.2)

/-- handle_update (lines 1207-1225): look up the claimed identifier; drop
silently when the sender endpoint differs from the bound endpoint;
otherwise overwrite the player-state record (forcing the identifier back to
the assigned one) and refresh `last_seen`. -/
def handle_update (s : ServerState) (claimed : Nat) (d : PlayerData) (addr : Addr)
    (now : Int) : ServerState :=
  match find_player_by_id s.players claimed with
  | none => s
  | some p =>
      if sameAddr p.addr addr then
        let ps1 := updateFirst (playerIdPred claimed)
          (fun q => { q with
            data := { d with player_id := q.player_id }, last_seen := now }) s.players
        { s with players := ps1 }
      else s

/-- handle_spectate (lines 1228-1273): refresh a known spectator, reject
silently when the spectator table is full, otherwise record the endpoint
and answer with a spectate-ack echoing the inbound sequence. -/
def handle_spectate (s : ServerState) (seq : Nat) (addr : Addr) (now : Int) :
    ServerState × List Send :=
  if s.spectators.any (fun sp => sp.active && sameAddr sp.addr addr) then
    let sp1 := updateFirst (fun sp => sp.active && sameAddr sp.addr addr)
      (fun sp => { sp with last_seen := now }) s.spectators
    ({ s with spectators := sp1 }, [])
  else if s.spectators.all (fun sp => sp.active) then (s, [])
  else
    let sp2 := updateFirst (fun sp => !sp.active)
      (fun _ => Spectator.mk addr now true) s.spectators
    ({ s with spectators := sp2 },
     [Send.mk addr (OutMsg.spectateAck seq) packetHeaderSize])

/-- handle_leave (lines 1276-1286): the sender endpoint is explicitly
unused; the first active player with the header's identifier is
deactivated, then world state is broadcast unconditionally. -/
def handle_leave (s : ServerState) (pid : Nat) (addr : Addr) : ServerState × List Send :=
  let _ := addr
  let ps1 := updateFirst (playerIdPred pid)
    (fun p => { p with active := false }) s.players
  broadcast_world_state { s with players := ps1 }

/-- cleanup_inactive_players (lines 1289-1300): deactivate every active
player whose last-seen timestamp is older than PLAYER_TIMEOUT_SEC; the
spectator table is not scanned. -/
def cleanup_inactive_players (s : ServerState) (now : Int) : ServerState :=
  let ps1 := s.players.map (fun p =>
    if p.active = true ∧ PLAYER_TIMEOUT_SEC < now - p.last_seen
    then { p with active := false } else p)
  { s with players := ps1 }

/-- Relay a packet verbatim to every active player except the sender
endpoint (the common body of relay_arrow_spawn, lines 1320-1338, and
relay_arrow_hit, lines 1341-1359). -/
def relayToOthers (s : ServerState) (sender : Addr) (m : OutMsg) (len : Nat) :
    List Send :=
  (s.players.filter (fun p => p.active && !sameAddr p.addr sender)).map
    (fun p => Send.mk p.addr m len)

/-- Host scan of relay_entity_damage (lines 1365-1372): linear scan keeping
the active player whose identifier is strictly below the running minimum,
which starts at UINT32_MAX. -/
def findHostAux : List Player → Nat → Option Player → Option Player
  | [], _, h => h
  | p :: ps, lowest, h =>
      if p.active && decide (p.player_id < lowest) then
        findHostAux ps p.player_id (some p)
      else findHostAux ps lowest h

/-- Find the host: the active session with the smallest assigned
identifier (lines 1364-1372). -/
def findHost (ps : List Player) : Option Player :=
  findHostAux ps (U32 - 1) none

/-- relay_entity_damage (lines 1362-1382): re-emit the entity-damage packet
verbatim to the host.  Note: the dispatcher never calls this function; it
is dead code in the source, embedded here for reference. -/
def relay_entity_damage (s : ServerState) (seq pid entityId : Nat) (damage : ℚ)
    (attacker : Nat) : List Send :=
  match findHost s.players with
  | some h => [Send.mk h.addr
      (OutMsg.entityDamageRelay seq pid entityId damage attacker) entityDamagePacketSize]
  | none => []

/-- The dispatcher of the main loop (lines 1483-1552): route each
well-formed inbound datagram to its handler.  A ping is answered with a
pong echoing the inbound sequence and sender identifier (lines 1505-1514);
a heartbeat does nothing (lines 1535-1537); an entity-damage packet is
processed by `handle_entity_damage_server` (lines 1516-1521). -/
def processPacket (env : Env) (s : ServerState) (pkt : InPacket) (addr : Addr)
    (now : Int) : ServerState × List Send :=
  match pkt with
  | .join _ _ name => handle_join env s name addr now
  | .update _ pid d => (handle_update s pid d addr now, [])
  | .leave _ pid => handle_leave s pid addr
  | .ping seq pid => (s, [Send.mk addr (OutMsg.pong seq pid) packetHeaderSize])
  | .entityDamage _ _ eid dmg atk => handle_entity_damage_server env s eid dmg atk
  | .arrowSpawn seq pid aid px py pz dx dy dz sh =>
      (s, relayToOthers s addr
        (OutMsg.arrowSpawnRelay seq pid aid px py pz dx dy dz sh) arrowSpawnPacketSize)
  | .arrowHit seq pid aid hx hy hz he =>
      (s, relayToOthers s addr
        (OutMsg.arrowHitRelay seq pid aid hx hy hz he) arrowHitPacketSize)
  | .heartbeat _ _ => (s, [])
  | .spectate seq _ => handle_spectate s seq addr now
  | .gameRestart _ pid reason => handle_game_restart env s reason pid

/-- Iterate `update_bobba_ai` over a list of tick deltas for one attack
cycle: the iteration stops as soon as the Bobba leaves the attacking
state.  The outputs of all ticks are concatenated. -/
def runAttack (env : Env) : ServerState → ServerBobba → List ℚ →
    ServerBobba × ServerState × List Send
  | s, b, [] => (b, s, [])
  | s, b, d :: ds =>
      if b.state = BOBBA_ATTACKING then
        let r := update_bobba_ai env s b d
        let r2 := runAttack env r.2.1 r.1 ds
        (r2.1, r2.2.1, r.2.2 ++ r2.2.2)
      else (b, s, [])

/-- The single player-damage send produced during an attack cycle of Bobba
`b` against player `p` when the knockback is normalized: damage 70,
horizontal knockback the unit vector from Bobba to target scaled by the
knockback force 12, vertical component 0.3 scaled by 12. -/
def hitSend (env : Env) (s : ServerState) (b : ServerBobba) (p : Player) : Send :=
  let dx0 := p.data.pos_x - b.pos_x
  let dz0 := p.data.pos_z - b.pos_z
  let len := env.sqrtQ (dx0 * dx0 + dz0 * dz0)
  Send.mk p.addr
    (OutMsg.playerDamage ((s.state_sequence + 1) % U32) b.target_player_id
      BOBBA_ATTACK_DAMAGE b.entity_id (dx0 / len * BOBBA_KNOCKBACK_FORCE)
      ((3/10) * BOBBA_KNOCKBACK_FORCE) (dz0 / len * BOBBA_KNOCKBACK_FORCE))
    playerDamagePacketSize

/-- Endpoint of the first sample client. -/
def addrA : Addr := ⟨1, 1000⟩

/-- Endpoint of the second sample client. -/
def addrB : Addr := ⟨2, 2000⟩

/-- A sample player-state record. -/
def pdata (pid : Nat) (x y z : ℚ) : PlayerData :=
  { player_id := pid, pos_x := x, pos_y := y, pos_z := z, rot_y := 0,
    state := STATE_IDLE, combat_mode := 1, character_class := 1, health := 100,
    anim_name := "Idle", active := 1 }

/-- Sample session 1, bound to `addrA`, standing at (0, 0, 3). -/
def player1 : Player :=
  { player_id := 1, name := "A", addr := addrA, last_seen := 0,
    data := pdata 1 0 0 3, active := true }

/-- Sample session 2, bound to `addrB`, standing at (7, 0, 0). -/
def player2 : Player :=
  { player_id := 2, name := "B", addr := addrB, last_seen := 0,
    data := pdata 2 7 0 0, active := true }

/-- Base sample server state with two active sessions and no entities. -/
def baseState : ServerState :=
  { players := [player1, player2], spectators := [], bobbas := [], dragons := [],
    next_player_id := 3, next_entity_id := 10, state_sequence := 0,
    test_multiplayer := false, rngIdx := 0 }

/-- Sample state with exactly one active session. -/
def oneState : ServerState := { baseState with players := [player1] }

/-- A sample Bobba at the origin with the given health and hit flag, bound
to target player 1. -/
def bobbaAt (health : ℚ) (flag : Bool) : ServerBobba :=
  { entity_id := 7, pos_x := 0, pos_y := 0, pos_z := 0, rot_y := 0,
    state := BOBBA_ATTACKING, health := health, active := true,
    target_player_id := 1, roam_dir_x := 1, roam_dir_z := 0, roam_timer := 3,
    attack_timer := 3/2, attack_start_time := 3/2, stun_timer := 0,
    has_hit_this_attack := flag }

/-- Sample state holding a healthy Bobba whose once-per-swing flag is
already set. -/
def bobFlagState : ServerState := { baseState with bobbas := [bobbaAt 100 true] }

/-- Sample state holding an almost-dead Bobba. -/
def bobLowState : ServerState := { baseState with bobbas := [bobbaAt 10 false] }

/-- A sample active Dragon with identifier 9 and health 100. -/
def dragon9 : ServerDragon :=
  { entity_id := 9, pos_x := 0, pos_y := 80, pos_z := 0, rot_y := 0,
    state := 0, health := 100, active := true, patrol_angle := 0,
    patrol_center_x := 0, patrol_center_z := 10, laps_completed := 0,
    wait_timer := 0, attack_timer := 0, target_player_id := 0 }

/-- Sample state holding only the Dragon. -/
def dragState : ServerState := { baseState with dragons := [dragon9] }

/-- A sample active spectator bound to `addrB`. -/
def spectator1 : Spectator := ⟨addrB, 0, true⟩

/-- Sample state with one active spectator. -/
def specState : ServerState := { baseState with spectators := [spectator1] }

/-- Sample state for the attack-cycle run: two active sessions and the
attacking Bobba; `player1` stands three units away from the Bobba. -/
def attackState : ServerState := { baseState with bobbas := [bobbaAt 100 false] }

/-! Helper lemmas about `updateFirst` and the broadcasters. -/

theorem updateFirst_find?_pos {α : Type} (p : α → Bool) (f : α → α) :
    ∀ {l : List α} {b : α}, l.find? p = some b → p (f b) = true →
      (updateFirst p f l).find? p = some (f b) := by
  intro l
  induction l with
  | nil => intro b h; simp [List.find?] at h
  | cons a as ih =>
      intro b h hfb
      by_cases hpa : p a = true
      · rw [List.find?_cons_of_pos _ hpa] at h
        cases h
        simp [updateFirst, hpa, List.find?_cons_of_pos _ hfb]
      · have hpa2 : p a = false := by simpa using hpa
        rw [List.find?_cons_of_neg _ (by simp [hpa2])] at h
        simp only [updateFirst, hpa2, if_false, Bool.false_eq_true]
        rw [List.find?_cons_of_neg _ (by simp [hpa2])]
        exact ih h hfb

theorem updateFirst_find?_none {α : Type} (p : α → Bool) (f : α → α)
    (hf : ∀ x, p x = true → p (f x) = false) :
    ∀ l : List α, l.countP p ≤ 1 → (updateFirst p f l).find? p = none := by
  intro l
  induction l with
  | nil => intro _; rfl
  | cons a as ih =>
      intro hc
      by_cases hpa : p a = true
      · simp only [updateFirst, hpa, if_true]
        rw [List.find?_cons_of_neg _ (by simp [hf a hpa])]
        rw [List.countP_cons_of_pos _ _ hpa] at hc
        have hz : as.countP p = 0 := by omega
        rw [List.find?_eq_none]
        intro x hx
        have := (List.countP_eq_zero).1 hz x hx
        simpa using this
      · have hpa2 : p a = false := by simpa using hpa
        simp only [updateFirst, hpa2, if_false, Bool.false_eq_true]
        rw [List.find?_cons_of_neg _ (by simp [hpa2])]
        exact ih (by rwa [List.countP_cons_of_neg _ _ (by simp [hpa2])] at hc)

theorem updateFirst_mem_active {α : Type} (p : α → Bool) (f : α → α)
    (act : α → Bool) (ad : α → Addr)
    (hf : ∀ x, p x = true → act x = true → act (f x) = true ∧ ad (f x) = ad x) :
    ∀ l : List α, ∀ x ∈ l, act x = true →
      ∃ y ∈ updateFirst p f l, act y = true ∧ ad y = ad x := by
  intro l
  induction l with
  | nil => intro x hx; simp at hx
  | cons a as ih =>
      intro x hx hax
      by_cases hpa : p a = true
      · simp only [updateFirst, hpa, if_true]
        rcases List.mem_cons.1 hx with rfl | hxs
        · rcases hf x hpa hax with ⟨h1, h2⟩
          exact ⟨f x, List.mem_cons_self _ _, h1, h2⟩
        · exact ⟨x, List.mem_cons_of_mem _ hxs, hax, rfl⟩
      · have hpa2 : p a = false := by simpa using hpa
        simp only [updateFirst, hpa2, if_false, Bool.false_eq_true]
        rcases List.mem_cons.1 hx with rfl | hxs
        · exact ⟨x, List.mem_cons_self _ _, hax, rfl⟩
        · rcases ih x hxs hax with ⟨y, hy, h1, h2⟩
          exact ⟨y, List.mem_cons_of_mem _ hy, h1, h2⟩

theorem broadcast_world_state_spectators (s : ServerState) :
    (broadcast_world_state s).1.spectators = s.spectators := rfl

theorem broadcast_world_state_players (s : ServerState) :
    (broadcast_world_state s).1.players = s.players := rfl

theorem broadcast_entity_state_spectators (s : ServerState) :
    (broadcast_entity_state s).1.spectators = s.spectators := by
  by_cases hn : ((s.bobbas.filter (fun b => b.active)).length
      + (s.dragons.filter (fun d => d.active)).length) = 0
  · simp [broadcast_entity_state, hn]
  · simp [broadcast_entity_state, hn]

theorem handle_game_restart_spectators (env : Env) (s : ServerState)
    (reason requester : Nat) :
    (handle_game_restart env s reason requester).1.spectators = s.spectators := by
  unfold handle_game_restart respawn_all_players respawn_all_bobbas
  dsimp only
  rw [broadcast_world_state_spectators, broadcast_entity_state_spectators]

theorem handle_entity_damage_spectators (env : Env) (s : ServerState)
    (eid : Nat) (dmg : ℚ) (atk : Nat) :
    (handle_entity_damage_server env s eid dmg atk).1.spectators = s.spectators := by
  unfold handle_entity_damage_server
  split
  · dsimp only
    split
    · exact handle_game_restart_spectators env _ 1 0
    · rfl
  · split <;> rfl

/-- C1: the claim that a world-state message with one active session is
exactly 74 bytes is refuted: `broadcast_world_state` always sends
`sizeof(WorldStatePacket)` (line 1117), which is 1934 bytes, and the single
send produced by the one-player sample state has that length. -/
theorem c1_worldstate_len_counterexample :
    ((broadcast_world_state oneState).2.map (fun sd => sd.len)) = [1934] ∧
    (1934 : Nat) ≠ 74 := by
  exact ⟨by decide, by decide⟩

/-- C1 (amended): while exactly one session is active, every world-state
datagram the server emits is the full fixed-capacity packet of
`worldStatePacketSize` = 1934 bytes (9-byte header, 4-byte state-sequence,
1-byte count, 32 slots of 60 bytes), its count field is 1, and
9 + 4 + 1 + 60 = 74 is the size of the meaningful prefix holding the one
60-byte player-state record. -/
theorem c1_worldstate_size (s : ServerState) (h : count_active_players s = 1) :
    ((broadcast_world_state s).2.all
      (fun sd => sd.len == worldStatePacketSize
        && sd.msg.worldStateCount == some 1)) = true ∧
    worldStatePacketSize = 1934 ∧
    packetHeaderSize + 4 + 1 + playerDataSize = 74 := by
  refine ⟨?_, by decide, by decide⟩
  have hl : (((s.players.filter (fun p => p.active)).map (fun p => p.data)).take
      MAX_PLAYERS).length = 1 := by
    rw [List.length_take, List.length_map]
    unfold count_active_players at h
    rw [h]
    decide
  simp only [broadcast_world_state, List.all_append, Bool.and_eq_true,
    List.all_eq_true]
  constructor <;>
  · intro x hx
    rcases List.mem_map.1 hx with ⟨y, _, rfl⟩
    simp [hl, OutMsg.worldStateCount]

/-- C1 witness: the amended statement evaluated on the one-player state. -/
theorem c1_worldstate_size_witness :
    count_active_players oneState = 1 ∧
    ((broadcast_world_state oneState).2.all
      (fun sd => sd.len == worldStatePacketSize
        && sd.msg.worldStateCount == some 1)) = true :=
  ⟨by decide, (c1_worldstate_size oneState (by decide)).1⟩

/-- C2: the claim that an inbound entity-damage message is re-emitted to
the host is refuted: with two active sessions (so a host exists) and a
surviving Bobba, processing an entity-damage packet produces no outbound
message at all — the dispatcher routes it to `handle_entity_damage_server`
(line 1519) and never calls `relay_entity_damage`. -/
theorem c2_entity_damage_counterexample :
    (processPacket env0 bobFlagState (.entityDamage 1 2 7 30 2) addrB 0).2 = [] ∧
    count_active_players bobFlagState = 2 := by
  constructor
  · norm_num [processPacket, handle_entity_damage_server, bobFlagState, baseState,
      bobbaAt, bobbaIdPred, List.find?]
  · decide

/-- C2 (amended): an inbound entity-damage message is never re-emitted to
any participant; the server consumes it itself (applying the damage
server-side), and no send it may trigger (the death-restart broadcasts) is
an entity-damage message. -/
theorem c2_entity_damage_never_relayed (env : Env) (s : ServerState)
    (seq pid eid : Nat) (dmg : ℚ) (atk : Nat) (addr : Addr) (now : Int) :
    ((processPacket env s (.entityDamage seq pid eid dmg atk) addr now).2.all
      (fun sd => !sd.msg.isEntityDamage)) = true := by
  have hws : ∀ t : ServerState, ((broadcast_world_state t).2.all
      (fun sd => !sd.msg.isEntityDamage)) = true := by
    intro t
    simp only [broadcast_world_state, List.all_append, Bool.and_eq_true,
      List.all_eq_true]
    constructor <;>
    · intro x hx
      rcases List.mem_map.1 hx with ⟨y, _, rfl⟩
      rfl
  have hes : ∀ t : ServerState, ((broadcast_entity_state t).2.all
      (fun sd => !sd.msg.isEntityDamage)) = true := by
    intro t
    by_cases hn : ((t.bobbas.filter (fun b => b.active)).length
        + (t.dragons.filter (fun d => d.active)).length) = 0
    · simp [broadcast_entity_state, hn]
    · simp only [broadcast_entity_state, hn, if_false, List.all_append,
        Bool.and_eq_true, List.all_eq_true]
      constructor <;>
      · intro x hx
        rcases List.mem_map.1 hx with ⟨y, _, rfl⟩
        rfl
  have hgr : ∀ (t : ServerState) (r q : Nat), ((handle_game_restart env t r q).2.all
      (fun sd => !sd.msg.isEntityDamage)) = true := by
    intro t r q
    unfold handle_game_restart
    dsimp only
    rw [List.all_append, List.all_append]
    simp only [Bool.and_eq_true]
    refine ⟨⟨?_, hes _⟩, hws _⟩
    rw [List.all_eq_true]
    intro x hx
    rcases List.mem_map.1 hx with ⟨y, _, rfl⟩
    rfl
  simp only [processPacket]
  unfold handle_entity_damage_server
  split
  · dsimp only
    split
    · exact hgr _ 1 0
    · rfl
  · split <;> rfl

/-- C3: the claim is right and the code is wrong.  The dispatcher's
heartbeat case (lines 1535-1537) does nothing despite its comment claiming
the last-seen timestamp is "already done by finding player", and the ping
case (lines 1505-1514) answers without touching the session either; hence
a session whose client keeps sending heartbeats and pings is still
deactivated by the 10-second reaper: here a heartbeat and a ping arriving
at time 11 leave the state unchanged and the reaper then deactivates
session 1. -/
theorem c3_heartbeat_liveness_bug :
    processPacket env0 oneState (.heartbeat 1 1) addrA 11 = (oneState, []) ∧
    processPacket env0 oneState (.ping 9 1) addrA 11 =
      (oneState, [Send.mk addrA (OutMsg.pong 9 1) packetHeaderSize]) ∧
    find_player_by_id (cleanup_inactive_players oneState 11).players 1 = none := by
  exact ⟨by decide, by decide, by decide⟩

/-- C4: the claim is refuted in two places.  First, damaging a chaser does
not zero the once-per-swing hit flag: `handle_entity_damage_server` (lines
819-841) never touches `has_hit_this_attack`, so a sample Bobba whose flag
is set still has it set after taking 30 damage.  Second, lethal damage does
not leave the chaser stunned: it is deactivated and immediately respawned
roaming by the restart, so after 50 damage on a 10-health Bobba the slot is
active in the roaming state. -/
theorem c4_damage_counterexample :
    ((processPacket env0 bobFlagState (.entityDamage 1 2 7 30 2)
        addrB 0).1.bobbas.all (fun b => b.has_hit_this_attack)) = true ∧
    ((processPacket env0 bobLowState (.entityDamage 1 2 7 50 2)
        addrB 0).1.bobbas.all (fun b => b.state == BOBBA_ROAMING && b.active)) = true := by
  constructor
  · norm_num [processPacket, handle_entity_damage_server, bobFlagState, baseState,
      bobbaAt, bobbaIdPred, List.find?, updateFirst]
  · norm_num [processPacket, handle_entity_damage_server, bobLowState, baseState,
      bobbaAt, bobbaIdPred, List.find?, updateFirst, handle_game_restart,
      respawn_all_bobbas, respawnBobbasGo, respawn_all_players, respawnPlayersGo,
      broadcast_entity_state, broadcast_world_state, env0, player1, player2, pdata,
      BOBBA_ROAMING]

/-- C4 (amended): whenever a chaser receives an entity-damage message that
leaves its health positive, it transitions to stunned with a 0.5-second
stun timer and the attacker identifier is bound as its new target; the
once-per-swing hit flag is left unchanged, no message is sent, and the
player table is untouched.  (On lethal damage the chaser is instead
deactivated and respawned by the global restart.) -/
theorem c4_chaser_damage (env : Env) (s : ServerState) (eid : Nat) (dmg : ℚ)
    (atk : Nat) (b : ServerBobba)
    (hfind : s.bobbas.find? (bobbaIdPred eid) = some b)
    (hsurv : 0 < b.health - dmg) :
    (handle_entity_damage_server env s eid dmg atk).2 = [] ∧
    (handle_entity_damage_server env s eid dmg atk).1.players = s.players ∧
    (handle_entity_damage_server env s eid dmg atk).1.bobbas.find? (bobbaIdPred eid)
      = some { b with
          health := b.health - dmg, stun_timer := 1/2,
          state := BOBBA_STUNNED, target_player_id := atk } := by
  have hp : bobbaIdPred eid b = true := List.find?_some hfind
  unfold handle_entity_damage_server
  simp only [hfind]
  rw [if_neg (by linarith : ¬ (b.health - dmg ≤ 0))]
  refine ⟨rfl, rfl, ?_⟩
  apply updateFirst_find?_pos _ _ hfind
  simp only [bobbaIdPred, Bool.and_eq_true] at hp ⊢
  exact hp

/-- C4 witness: the amended statement on the sample Bobba with 100 health
taking 30 damage. -/
theorem c4_chaser_damage_witness :
    (0:ℚ) < 100 - 30 ∧
    (handle_entity_damage_server env0 bobFlagState 7 30 2).2 = [] :=
  ⟨by norm_num,
   (c4_chaser_damage env0 bobFlagState 7 30 2 (bobbaAt 100 true)
      (by norm_num [bobFlagState, baseState, bobbaAt, bobbaIdPred, List.find?])
      (by norm_num [bobbaAt])).1⟩

/-- C5: the claim is refuted: lethal entity damage to the patroller
deactivates it (lines 853-856) but triggers no restart at all — no
game-restart message is broadcast (the send list is empty) and no player is
respawned (the player table is unchanged). -/
theorem c5_patroller_death_counterexample :
    (processPacket env0 dragState (.entityDamage 1 2 9 150 2) addrB 0).2 = [] ∧
    (processPacket env0 dragState (.entityDamage 1 2 9 150 2) addrB 0).1.players
      = dragState.players ∧
    ((processPacket env0 dragState (.entityDamage 1 2 9 150 2) addrB 0).1.dragons.all
      (fun d => !d.active)) = true := by
  refine ⟨?_, ?_, ?_⟩ <;>
    norm_num [processPacket, handle_entity_damage_server, dragState, baseState,
      dragon9, bobbaIdPred, dragonIdPred, List.find?, updateFirst]

/-- C5 (amended): when an entity-damage message reduces the patroller's
health to zero or below (and no chaser matches the identifier), the
patroller is deactivated, but no global restart is triggered: nothing is
sent, and the player, chaser, and spectator tables are all unchanged. -/
theorem c5_patroller_death (env : Env) (s : ServerState) (eid : Nat) (dmg : ℚ)
    (atk : Nat) (d : ServerDragon)
    (hnb : s.bobbas.find? (bobbaIdPred eid) = none)
    (hfind : s.dragons.find? (dragonIdPred eid) = some d)
    (hone : s.dragons.length ≤ 1)
    (hdie : d.health - dmg ≤ 0) :
    (handle_entity_damage_server env s eid dmg atk).2 = [] ∧
    (handle_entity_damage_server env s eid dmg atk).1.players = s.players ∧
    (handle_entity_damage_server env s eid dmg atk).1.bobbas = s.bobbas ∧
    (handle_entity_damage_server env s eid dmg atk).1.spectators = s.spectators ∧
    (handle_entity_damage_server env s eid dmg atk).1.dragons.find?
      (dragonIdPred eid) = none := by
  have hpd : dragonIdPred eid d = true := List.find?_some hfind
  have hl : s.dragons = [d] := by
    cases hdr : s.dragons with
    | nil => rw [hdr] at hfind; simp [List.find?] at hfind
    | cons x xs =>
        have hxs : xs = [] := by
          rw [hdr] at hone
          cases xs with
          | nil => rfl
          | cons y ys => simp at hone
        subst hxs
        rw [hdr] at hfind
        by_cases hpx : dragonIdPred eid x = true
        · rw [List.find?_cons_of_pos _ hpx] at hfind
          cases hfind
          rfl
        · rw [List.find?_cons_of_neg _ (by simpa using hpx)] at hfind
          simp [List.find?] at hfind
  have hred : handle_entity_damage_server env s eid dmg atk
      = ({ s with
           dragons := updateFirst (dragonIdPred eid)
             (fun _ => { d with health := d.health - dmg, active := false })
             s.dragons }, []) := by
    unfold handle_entity_damage_server
    simp only [hnb, hfind, hdie, if_true]
  rw [hred]
  refine ⟨rfl, rfl, rfl, rfl, ?_⟩
  rw [hl]
  have hup : updateFirst (dragonIdPred eid)
      (fun _ => { d with health := d.health - dmg, active := false }) [d]
      = [{ d with health := d.health - dmg, active := false }] := by
    simp [updateFirst, hpd]
  rw [hup]
  simp [List.find?, dragonIdPred]

/-- C5 witness: the amended statement on the sample Dragon taking 150
damage. -/
theorem c5_patroller_death_witness :
    ((100:ℚ) - 150 ≤ 0) ∧
    (handle_entity_damage_server env0 dragState 9 150 2).2 = [] ∧
    (handle_entity_damage_server env0 dragState 9 150 2).1.dragons.find?
      (dragonIdPred 9) = none := by
  have h := c5_patroller_death env0 dragState 9 150 2 dragon9
    (by norm_num [dragState, baseState, List.find?])
    (by norm_num [dragState, baseState, dragon9, dragonIdPred, List.find?])
    (by norm_num [dragState, baseState])
    (by norm_num [dragon9])
  exact ⟨by norm_num, h.1, h.2.2.2.2⟩

/-- C6: the claim that every server-originated message carries the strictly
increasing outbound counter is refuted by pong: answering a ping echoes the
inbound sequence (lines 1505-1514) and leaves the server state unchanged,
so a second identical ping yields a second pong with the very same sequence
5, which is not strictly greater than 5. -/
theorem c6_pong_counterexample :
    (processPacket env0 baseState (.ping 5 1) addrA 0).1 = baseState ∧
    ((processPacket env0 baseState (.ping 5 1) addrA 0).2.map
      (fun sd => sd.msg.seqOf)) = [5] ∧
    ¬ (5 : Nat) < 5 := by
  exact ⟨rfl, rfl, by decide⟩

/-- C6 (amended): the shared outbound counter is stamped, pre-incremented,
into world-state snapshots, entity-state snapshots, game-restart
broadcasts, and player-damage messages, and consecutive world-state
snapshots carry strictly increasing sequence numbers as long as the 32-bit
counter does not wrap; join-acks instead carry the wall-clock time (so any
join-acks sent during the same second share the same sequence number) and
pong and spectate-ack echo the inbound sequence, so those kinds are not
strictly increasing. -/
theorem c6_sequence_discipline (s : ServerState) (h : s.state_sequence + 2 < U32) :
    ((broadcast_world_state s).2.all
      (fun sd => sd.msg.seqOf == s.state_sequence + 1)) = true ∧
    ((broadcast_world_state (broadcast_world_state s).1).2.all
      (fun sd => sd.msg.seqOf == s.state_sequence + 2)) = true ∧
    s.state_sequence + 1 < s.state_sequence + 2 ∧
    ((broadcast_entity_state s).2.all
      (fun sd => sd.msg.seqOf == s.state_sequence + 1)) = true ∧
    (∀ (env : Env) (s2 : ServerState) (sq pid : Nat) (addr : Addr) (now : Int),
      ((processPacket env s2 (.ping sq pid) addr now).2.all
        (fun sd => sd.msg.seqOf == sq)) = true) ∧
    (∀ (env : Env) (t : ServerState) (r q : Nat),
      ((handle_game_restart env t r q).2.all
        (fun sd => !sd.msg.isGameRestart
          || sd.msg.seqOf == (t.state_sequence + 1) % U32)) = true) ∧
    (∀ (t : ServerState) (target : Nat) (dmg : ℚ) (eid : Nat) (kx ky kz : ℚ),
      ((send_player_damage t target dmg eid kx ky kz).2.all
        (fun sd => sd.msg.seqOf == (t.state_sequence + 1) % U32)) = true) ∧
    (∀ (env : Env) (t : ServerState) (name : String) (addr : Addr) (now : Int),
      ((handle_join env t name addr now).2.all
        (fun sd => !sd.msg.isJoinAck
          || sd.msg.seqOf == (now % ((U32 : Nat) : Int)).toNat)) = true) ∧
    (∀ (t : ServerState) (sq : Nat) (addr : Addr) (now : Int),
      ((handle_spectate t sq addr now).2.all
        (fun sd => sd.msg.seqOf == sq)) = true) := by
  have hwsg : ∀ (t : ServerState) (f : OutMsg → Bool),
      (∀ sq ssq c recs, f (OutMsg.worldState sq ssq c recs) = true) →
      ((broadcast_world_state t).2.all (fun sd => f sd.msg)) = true := by
    intro t f hf
    simp only [broadcast_world_state, List.all_append, Bool.and_eq_true,
      List.all_eq_true]
    constructor <;>
    · intro x hx
      rcases List.mem_map.1 hx with ⟨y, _, rfl⟩
      exact hf _ _ _ _
  have hesg : ∀ (t : ServerState) (f : OutMsg → Bool),
      (∀ sq c ents, f (OutMsg.entityState sq c ents) = true) →
      ((broadcast_entity_state t).2.all (fun sd => f sd.msg)) = true := by
    intro t f hf
    by_cases hn : ((t.bobbas.filter (fun b => b.active)).length
        + (t.dragons.filter (fun d => d.active)).length) = 0
    · simp [broadcast_entity_state, hn]
    · simp only [broadcast_entity_state, hn, if_false, List.all_append,
        Bool.and_eq_true, List.all_eq_true]
      constructor <;>
      · intro x hx
        rcases List.mem_map.1 hx with ⟨y, _, rfl⟩
        exact hf _ _ _
  have hall : ∀ t : ServerState, ((broadcast_world_state t).2.all
      (fun sd => sd.msg.seqOf == (t.state_sequence + 1) % U32)) = true := by
    intro t
    simp only [broadcast_world_state, List.all_append, Bool.and_eq_true,
      List.all_eq_true]
    constructor <;>
    · intro x hx
      rcases List.mem_map.1 hx with ⟨y, _, rfl⟩
      simp [OutMsg.seqOf]
  have halle : ∀ t : ServerState, ((broadcast_entity_state t).2.all
      (fun sd => sd.msg.seqOf == (t.state_sequence + 1) % U32)) = true := by
    intro t
    by_cases hn : ((t.bobbas.filter (fun b => b.active)).length
        + (t.dragons.filter (fun d => d.active)).length) = 0
    · simp [broadcast_entity_state, hn]
    · simp only [broadcast_entity_state, hn, if_false, List.all_append,
        Bool.and_eq_true, List.all_eq_true]
      constructor <;>
      · intro x hx
        rcases List.mem_map.1 hx with ⟨y, _, rfl⟩
        simp [OutMsg.seqOf]
  have hm1 : (s.state_sequence + 1) % U32 = s.state_sequence + 1 :=
    Nat.mod_eq_of_lt (by omega)
  refine ⟨?_, ?_, by omega, ?_, ?_, ?_, ?_, ?_, ?_⟩
  · have h1 := hall s
    simpa only [hm1] using h1
  · have h2 := hall (broadcast_world_state s).1
    have hseq : (broadcast_world_state s).1.state_sequence
        = (s.state_sequence + 1) % U32 := rfl
    rw [hseq] at h2
    have hm2 : ((s.state_sequence + 1) % U32 + 1) % U32 = s.state_sequence + 2 := by
      rw [hm1]
      exact Nat.mod_eq_of_lt (by omega)
    simpa only [hm2] using h2
  · have h3 := halle s
    simpa only [hm1] using h3
  · intro env s2 sq pid addr now
    simp [processPacket, OutMsg.seqOf]
  · intro env t r q
    unfold handle_game_restart
    dsimp only [respawn_all_players, respawn_all_bobbas]
    rw [List.all_append, List.all_append]
    simp only [Bool.and_eq_true]
    refine ⟨⟨?_, ?_⟩, ?_⟩
    · rw [List.all_eq_true]
      intro x hx
      rcases List.mem_map.1 hx with ⟨y, _, rfl⟩
      simp [OutMsg.isGameRestart, OutMsg.seqOf]
    · exact hesg _
        (fun m => ! m.isGameRestart || m.seqOf == (t.state_sequence + 1) % U32)
        (fun sq c ents => by simp [OutMsg.isGameRestart])
    · exact hwsg _
        (fun m => ! m.isGameRestart || m.seqOf == (t.state_sequence + 1) % U32)
        (fun sq ssq c recs => by simp [OutMsg.isGameRestart])
  · intro t target dmg eid kx ky kz
    unfold send_player_damage
    split
    · simp [OutMsg.seqOf]
    · rfl
  · intro env t name addr now
    unfold handle_join
    dsimp only
    split
    · rfl
    · split
      · rfl
      · dsimp only
        rw [List.all_cons]
        simp only [Bool.and_eq_true]
        constructor
        · simp [OutMsg.isJoinAck, OutMsg.seqOf]
        · exact hwsg _
            (fun m => ! m.isJoinAck || m.seqOf == (now % ((U32 : Nat) : Int)).toNat)
            (fun sq ssq c recs => by simp [OutMsg.isJoinAck])
  · intro t sq addr now
    unfold handle_spectate
    split
    · rfl
    · split
      · rfl
      · simp [OutMsg.seqOf]

/-- C6 witness: the amended statement on the base sample state. -/
theorem c6_sequence_discipline_witness :
    baseState.state_sequence + 2 < U32 ∧
    ((broadcast_world_state baseState).2.all
      (fun sd => sd.msg.seqOf == baseState.state_sequence + 1)) = true :=
  ⟨by decide, (c6_sequence_discipline baseState (by decide)).1⟩

/-- C8: an update message whose sender endpoint does not match the endpoint
bound to the claimed identifier is dropped silently — the handler (lines
1214-1218) returns before any write, so the whole server state is returned
unchanged and nothing is sent. -/
theorem c8_spoofed_update_dropped (env : Env) (s : ServerState) (seq pid : Nat)
    (d : PlayerData) (addr : Addr) (now : Int) (p : Player)
    (hfind : find_player_by_id s.players pid = some p)
    (hne : sameAddr p.addr addr = false) :
    processPacket env s (.update seq pid d) addr now = (s, []) := by
  simp only [processPacket]
  unfold handle_update
  simp only [hfind, hne, Bool.false_eq_true, if_false]

/-- C8 witness: an update claiming identifier 1 arriving from endpoint B is
dropped without any state change. -/
theorem c8_spoofed_update_dropped_witness :
    find_player_by_id baseState.players 1 = some player1 ∧
    sameAddr player1.addr addrB = false ∧
    processPacket env0 baseState (.update 3 1 (pdata 1 9 9 9)) addrB 5
      = (baseState, []) :=
  ⟨by decide, by decide,
   c8_spoofed_update_dropped env0 baseState 3 1 (pdata 1 9 9 9) addrB 5 player1
     (by decide) (by decide)⟩

theorem handle_leave_spectators (s : ServerState) (pid : Nat) (a : Addr) :
    (handle_leave s pid a).1.spectators = s.spectators := by
  unfold handle_leave
  dsimp only
  rw [broadcast_world_state_spectators]

theorem handle_update_spectators (s : ServerState) (claimed : Nat)
    (d : PlayerData) (addr : Addr) (now : Int) :
    (handle_update s claimed d addr now).spectators = s.spectators := by
  unfold handle_update
  split
  · rfl
  · split <;> rfl

/-- C9: processing a leave deactivates the active session carrying the
header's identifier with no check of the sender endpoint (the handler
discards `client_addr`, line 1277), and unconditionally broadcasts world
state: the result is identical for any two sender endpoints, the session
is no longer found by identifier afterwards, and the sends are one
world-state message to every remaining active session and every active
spectator. -/
theorem c9_leave_no_endpoint_check (s : ServerState) (pid : Nat) (a1 a2 : Addr) :
    handle_leave s pid a1 = handle_leave s pid a2 ∧
    (s.players.countP (playerIdPred pid) ≤ 1 →
      find_player_by_id (handle_leave s pid a1).1.players pid = none) ∧
    ∃ m : OutMsg,
      (handle_leave s pid a1).2 =
        ((handle_leave s pid a1).1.players.filter (fun p => p.active)).map
          (fun p => Send.mk p.addr m worldStatePacketSize) ++
        ((handle_leave s pid a1).1.spectators.filter (fun sp => sp.active)).map
          (fun sp => Send.mk sp.addr m worldStatePacketSize) ∧
      m.isWorldState = true := by
  refine ⟨rfl, ?_, ?_⟩
  · intro hc
    unfold handle_leave find_player_by_id
    dsimp only
    rw [broadcast_world_state_players]
    refine updateFirst_find?_none _ _ ?_ _ hc
    intro x hx
    simp [playerIdPred]
  · exact ⟨_, rfl, rfl⟩

/-- C9 witness: a leave for identifier 2 sent from the unrelated endpoint A
deactivates session 2, and the result is the same as if it had come from
endpoint B. -/
theorem c9_leave_no_endpoint_check_witness :
    baseState.players.countP (playerIdPred 2) ≤ 1 ∧
    find_player_by_id (handle_leave baseState 2 addrA).1.players 2 = none ∧
    handle_leave baseState 2 addrA = handle_leave baseState 2 addrB :=
  ⟨by decide,
   (c9_leave_no_endpoint_check baseState 2 addrA addrB).2.1 (by decide),
   (c9_leave_no_endpoint_check baseState 2 addrA addrB).1⟩

theorem handle_spectate_active_mem (s : ServerState) (seq : Nat) (addr : Addr)
    (now : Int) : ∀ sp ∈ s.spectators, sp.active = true →
      ∃ sp2 ∈ (handle_spectate s seq addr now).1.spectators,
        sp2.active = true ∧ sp2.addr = sp.addr := by
  intro sp hmem hact
  unfold handle_spectate
  split
  · dsimp only
    exact updateFirst_mem_active (fun x => x.active && sameAddr x.addr addr)
      (fun x => { x with last_seen := now }) (fun x => x.active) (fun x => x.addr)
      (fun x _ ha => ⟨ha, rfl⟩) s.spectators sp hmem hact
  · split
    · exact ⟨sp, hmem, hact, rfl⟩
    · dsimp only
      refine updateFirst_mem_active _ _ (fun x => x.active) (fun x => x.addr)
        ?_ s.spectators sp hmem hact
      intro x hx ha
      have hx2 : x.active = false := by simpa using hx
      simp only [hx2] at ha
      cases ha

/-- C10: the once-per-second reaper scans only the player table, so the
spectator table is untouched by it (a spectator that stops sending packets
stays active indefinitely); moreover no inbound packet other than a join
ever deactivates a spectator — for every non-join packet, each active
spectator is still present and active afterwards. -/
theorem c10_reaper_spares_spectators (env : Env) (s : ServerState)
    (pkt : InPacket) (addr : Addr) (now : Int) :
    (cleanup_inactive_players s now).spectators = s.spectators ∧
    (pkt.isJoin = false → ∀ sp ∈ s.spectators, sp.active = true →
      ∃ sp2 ∈ (processPacket env s pkt addr now).1.spectators,
        sp2.active = true ∧ sp2.addr = sp.addr) := by
  refine ⟨rfl, ?_⟩
  intro hj sp hmem hact
  cases pkt with
  | join seq pid name => simp [InPacket.isJoin] at hj
  | update seq pid d =>
      refine ⟨sp, ?_, hact, rfl⟩
      simp only [processPacket]
      rw [handle_update_spectators]
      exact hmem
  | leave seq pid =>
      refine ⟨sp, ?_, hact, rfl⟩
      simp only [processPacket]
      rw [handle_leave_spectators]
      exact hmem
  | ping seq pid => exact ⟨sp, hmem, hact, rfl⟩
  | entityDamage seq pid eid dmg atk =>
      refine ⟨sp, ?_, hact, rfl⟩
      simp only [processPacket]
      rw [handle_entity_damage_spectators]
      exact hmem
  | arrowSpawn seq pid aid px py pz dx dy dz sh => exact ⟨sp, hmem, hact, rfl⟩
  | arrowHit seq pid aid hx hy hz he => exact ⟨sp, hmem, hact, rfl⟩
  | heartbeat seq pid => exact ⟨sp, hmem, hact, rfl⟩
  | spectate seq pid =>
      have h := handle_spectate_active_mem s seq addr now sp hmem hact
      simpa only [processPacket] using h
  | gameRestart seq pid reason =>
      refine ⟨sp, ?_, hact, rfl⟩
      simp only [processPacket]
      rw [handle_game_restart_spectators]
      exact hmem

/-- C10 witness: the reaper leaves the sample spectator table unchanged,
and a ping leaves the sample spectator active. -/
theorem c10_reaper_spares_spectators_witness :
    (cleanup_inactive_players specState 5).spectators = specState.spectators ∧
    ∃ sp2 ∈ (processPacket env0 specState (.ping 1 1) addrA 5).1.spectators,
      sp2.active = true ∧ sp2.addr = spectator1.addr := by
  have h := c10_reaper_spares_spectators env0 specState (.ping 1 1) addrA 5
  exact ⟨h.1, h.2 (by decide) spectator1 (by decide) (by decide)⟩

/-! Support lemmas for the attack-cycle analysis (claim C7).  The attack
progress is `1 - t / 1.5` for remaining timer `t`, so the hit window
`[0.30, 0.70]` corresponds to `t` in `[0.45, 1.05]`. -/

theorem window_miss (t : ℚ) (ht : 21/20 < t) :
    ¬ BOBBA_HIT_WINDOW_START ≤ 1 - t / BOBBA_ATTACK_DURATION := by
  unfold BOBBA_HIT_WINDOW_START BOBBA_ATTACK_DURATION
  intro hcon
  have he : t / ((3:ℚ)/2) = t * (2/3) := by ring
  rw [he] at hcon
  linarith

theorem window_in_lo (t : ℚ) (h2 : t ≤ 21/20) :
    BOBBA_HIT_WINDOW_START ≤ 1 - t / BOBBA_ATTACK_DURATION := by
  unfold BOBBA_HIT_WINDOW_START BOBBA_ATTACK_DURATION
  have he : t / ((3:ℚ)/2) = t * (2/3) := by ring
  rw [he]
  linarith

theorem window_in_hi (t : ℚ) (h1 : 9/20 < t) :
    1 - t / BOBBA_ATTACK_DURATION ≤ BOBBA_HIT_WINDOW_END := by
  unfold BOBBA_HIT_WINDOW_END BOBBA_ATTACK_DURATION
  have he : t / ((3:ℚ)/2) = t * (2/3) := by ring
  rw [he]
  linarith

theorem update_attacking_miss (env : Env) (s : ServerState) (b : ServerBobba)
    (delta : ℚ)
    (hact : b.active = true) (hmp : s.test_multiplayer = false)
    (hstun : ¬ 0 < b.stun_timer) (hstate : b.state = BOBBA_ATTACKING)
    (hstart : b.attack_start_time = BOBBA_ATTACK_DURATION)
    (hz : 21/20 < b.attack_timer - delta) :
    update_bobba_ai env s b delta
      = ({ b with attack_timer := b.attack_timer - delta }, s, []) := by
  unfold update_bobba_ai
  rw [if_neg (by simp [hact] : ¬ b.active = false)]
  rw [if_neg (by simp [hmp] : ¬ s.test_multiplayer = true)]
  rw [if_neg hstun]
  rw [if_pos hstate]
  unfold bobba_attacking_step
  dsimp only
  rw [if_neg (by
    intro hcon
    rcases hcon with ⟨_, hB, _, _⟩
    rw [hstart] at hB
    exact window_miss _ hz hB)]
  simp only [bobba_attack_tail]
  rw [if_neg (by linarith : ¬ b.attack_timer - delta ≤ 0)]

theorem update_attacking_hit (env : Env) (s : ServerState) (b : ServerBobba)
    (delta : ℚ) (p : Player)
    (hact : b.active = true) (hmp : s.test_multiplayer = false)
    (hstun : ¬ 0 < b.stun_timer) (hstate : b.state = BOBBA_ATTACKING)
    (hflag : b.has_hit_this_attack = false)
    (hstart : b.attack_start_time = BOBBA_ATTACK_DURATION)
    (hz1 : 9/20 < b.attack_timer - delta) (hz2 : b.attack_timer - delta ≤ 21/20)
    (hpid : b.target_player_id ≠ 0)
    (hfind : find_player_by_id s.players b.target_player_id = some p)
    (hdist : distance_3d env b.pos_x b.pos_y b.pos_z p.data.pos_x p.data.pos_y
      p.data.pos_z ≤ BOBBA_ATTACK_DISTANCE * 2)
    (hlen : 1/100 < env.sqrtQ ((p.data.pos_x - b.pos_x) * (p.data.pos_x - b.pos_x)
      + (p.data.pos_z - b.pos_z) * (p.data.pos_z - b.pos_z))) :
    update_bobba_ai env s b delta
      = ({ b with attack_timer := b.attack_timer - delta, has_hit_this_attack := true },
         { s with state_sequence := (s.state_sequence + 1) % U32 },
         [hitSend env s b p]) := by
  have hpa : p.active = true := by
    have h := List.find?_some hfind
    simp only [playerIdPred, Bool.and_eq_true] at h
    exact h.1
  unfold update_bobba_ai
  rw [if_neg (by simp [hact] : ¬ b.active = false)]
  rw [if_neg (by simp [hmp] : ¬ s.test_multiplayer = true)]
  rw [if_neg hstun]
  rw [if_pos hstate]
  unfold bobba_attacking_step send_player_damage
  dsimp only
  rw [if_pos (⟨hflag,
      by rw [hstart]; exact window_in_lo _ hz2,
      by rw [hstart]; exact window_in_hi _ hz1, hpid⟩ :
    b.has_hit_this_attack = false ∧
      BOBBA_HIT_WINDOW_START ≤ 1 - (b.attack_timer - delta) / b.attack_start_time ∧
      1 - (b.attack_timer - delta) / b.attack_start_time ≤ BOBBA_HIT_WINDOW_END ∧
      b.target_player_id ≠ 0)]
  simp only [hfind]
  rw [if_pos hpa]
  rw [if_pos hdist]
  rw [if_pos hlen, if_pos hlen]
  simp only [bobba_attack_tail]
  rw [if_neg (by linarith : ¬ b.attack_timer - delta ≤ 0)]
  rfl

theorem update_attacking_done (env : Env) (s : ServerState) (b : ServerBobba)
    (delta : ℚ)
    (hact : b.active = true) (hmp : s.test_multiplayer = false)
    (hstun : ¬ 0 < b.stun_timer) (hstate : b.state = BOBBA_ATTACKING)
    (hflag : b.has_hit_this_attack = true) :
    update_bobba_ai env s b delta
      = (if b.attack_timer - delta ≤ 0
          then { b with attack_timer := b.attack_timer - delta, state := BOBBA_CHASING }
          else { b with attack_timer := b.attack_timer - delta }, s, []) := by
  unfold update_bobba_ai
  rw [if_neg (by simp [hact] : ¬ b.active = false)]
  rw [if_neg (by simp [hmp] : ¬ s.test_multiplayer = true)]
  rw [if_neg hstun]
  rw [if_pos hstate]
  unfold bobba_attacking_step
  dsimp only
  rw [if_neg (by simp [hflag] :
    ¬ (b.has_hit_this_attack = false ∧
        BOBBA_HIT_WINDOW_START ≤ 1 - (b.attack_timer - delta) / b.attack_start_time ∧
        1 - (b.attack_timer - delta) / b.attack_start_time ≤ BOBBA_HIT_WINDOW_END ∧
        b.target_player_id ≠ 0))]
  simp only [bobba_attack_tail]
  by_cases hz : b.attack_timer - delta ≤ 0
  · rw [if_pos hz, if_pos hz]
  · rw [if_neg hz, if_neg hz]

theorem runAttack_after_hit (env : Env) :
    ∀ (ds : List ℚ) (s : ServerState) (b : ServerBobba),
      s.test_multiplayer = false → b.active = true → ¬ 0 < b.stun_timer →
      b.has_hit_this_attack = true →
      (runAttack env s b ds).2.2 = [] := by
  intro ds
  induction ds with
  | nil => intro s b _ _ _ _; rfl
  | cons d ds ih =>
      intro s b hmp hact hstun hflag
      by_cases hst : b.state = BOBBA_ATTACKING
      · rw [runAttack, if_pos hst]
        dsimp only
        rw [update_attacking_done env s b d hact hmp hstun hst hflag]
        dsimp only
        rw [List.nil_append]
        by_cases hz : b.attack_timer - d ≤ 0
        · rw [if_pos hz]
          exact ih s _ hmp hact hstun hflag
        · rw [if_neg hz]
          exact ih s _ hmp hact hstun hflag
      · rw [runAttack, if_neg hst]

theorem runAttack_before_hit (env : Env) (p : Player) :
    ∀ (ds : List ℚ) (s : ServerState) (b : ServerBobba),
      s.test_multiplayer = false → b.active = true → ¬ 0 < b.stun_timer →
      b.state = BOBBA_ATTACKING → b.has_hit_this_attack = false →
      b.attack_start_time = BOBBA_ATTACK_DURATION →
      21/20 < b.attack_timer →
      b.target_player_id ≠ 0 →
      find_player_by_id s.players b.target_player_id = some p →
      distance_3d env b.pos_x b.pos_y b.pos_z p.data.pos_x p.data.pos_y p.data.pos_z
        ≤ BOBBA_ATTACK_DISTANCE * 2 →
      1/100 < env.sqrtQ ((p.data.pos_x - b.pos_x) * (p.data.pos_x - b.pos_x)
        + (p.data.pos_z - b.pos_z) * (p.data.pos_z - b.pos_z)) →
      (∀ d ∈ ds, 0 < d ∧ d ≤ 3/5) →
      b.attack_timer - 21/20 < ds.sum →
      (runAttack env s b ds).2.2 = [hitSend env s b p] := by
  intro ds
  induction ds with
  | nil =>
      intro s b _ _ _ _ _ _ ht _ _ _ _ _ hsum
      exfalso
      rw [List.sum_nil] at hsum
      linarith
  | cons d ds ih =>
      intro s b hmp hact hstun hst hflag hstart ht hpid hfind hdist hlen hde hsum
      have hd := hde d (List.mem_cons_self d ds)
      rw [List.sum_cons] at hsum
      rw [runAttack, if_pos hst]
      dsimp only
      by_cases hz : 21/20 < b.attack_timer - d
      · rw [update_attacking_miss env s b d hact hmp hstun hst hstart hz]
        dsimp only
        rw [List.nil_append]
        exact ih s _ hmp hact hstun hst hflag hstart hz hpid hfind hdist hlen
          (fun e he => hde e (List.mem_cons_of_mem _ he)) (by linarith)
      · have hz2 : b.attack_timer - d ≤ 21/20 := le_of_not_lt hz
        have hz1 : 9/20 < b.attack_timer - d := by
          rcases hd with ⟨_, hdu⟩
          linarith
        rw [update_attacking_hit env s b d p hact hmp hstun hst hflag hstart hz1 hz2
          hpid hfind hdist hlen]
        dsimp only
        rw [runAttack_after_hit env ds
          { s with state_sequence := (s.state_sequence + 1) % U32 }
          { b with attack_timer := b.attack_timer - d, has_hit_this_attack := true }
          hmp hact hstun rfl]
        rw [List.append_nil]

theorem knockback_sq (a c L K : ℚ) (hL : L ≠ 0) :
    (a / L * K) * (a / L * K) + (c / L * K) * (c / L * K)
      = K * K * ((a * a + c * c) / (L * L)) := by
  field_simp
  ring

/-- C7: for a chaser that has just entered the attacking state (timer and
total both 1.5 s, hit flag clear) whose bound target remains active and
within twice the attack distance throughout, a run of AI ticks whose
positive deltas are at most 0.6 s (so that some tick lands in the hit
window) and whose total exceeds the attack duration emits exactly one
player-damage message: it carries damage 70 and a knockback whose
horizontal part is the unit vector from chaser to target scaled by the
knockback force 12 (its squared magnitude is 12 * 12 when the square root
is exact) and whose vertical component is 0.3 scaled by 12. -/
theorem c7_attack_cycle_one_hit (env : Env) (s : ServerState) (b : ServerBobba)
    (p : Player) (deltas : List ℚ)
    (hmp : s.test_multiplayer = false)
    (hact : b.active = true)
    (hstun : ¬ 0 < b.stun_timer)
    (hstate : b.state = BOBBA_ATTACKING)
    (hflag : b.has_hit_this_attack = false)
    (htimer : b.attack_timer = BOBBA_ATTACK_DURATION)
    (hstart : b.attack_start_time = BOBBA_ATTACK_DURATION)
    (hpid : b.target_player_id ≠ 0)
    (hfind : find_player_by_id s.players b.target_player_id = some p)
    (hdist : distance_3d env b.pos_x b.pos_y b.pos_z p.data.pos_x p.data.pos_y
      p.data.pos_z ≤ BOBBA_ATTACK_DISTANCE * 2)
    (hlen : 1/100 < env.sqrtQ ((p.data.pos_x - b.pos_x) * (p.data.pos_x - b.pos_x)
      + (p.data.pos_z - b.pos_z) * (p.data.pos_z - b.pos_z)))
    (hsq : env.sqrtQ ((p.data.pos_x - b.pos_x) * (p.data.pos_x - b.pos_x)
        + (p.data.pos_z - b.pos_z) * (p.data.pos_z - b.pos_z))
      * env.sqrtQ ((p.data.pos_x - b.pos_x) * (p.data.pos_x - b.pos_x)
        + (p.data.pos_z - b.pos_z) * (p.data.pos_z - b.pos_z))
      = (p.data.pos_x - b.pos_x) * (p.data.pos_x - b.pos_x)
        + (p.data.pos_z - b.pos_z) * (p.data.pos_z - b.pos_z))
    (hde : ∀ d ∈ deltas, 0 < d ∧ d ≤ 3/5)
    (hsum : BOBBA_ATTACK_DURATION < deltas.sum) :
    (runAttack env s b deltas).2.2 = [hitSend env s b p] ∧
    ((p.data.pos_x - b.pos_x)
        / env.sqrtQ ((p.data.pos_x - b.pos_x) * (p.data.pos_x - b.pos_x)
          + (p.data.pos_z - b.pos_z) * (p.data.pos_z - b.pos_z))
        * BOBBA_KNOCKBACK_FORCE)
      * ((p.data.pos_x - b.pos_x)
        / env.sqrtQ ((p.data.pos_x - b.pos_x) * (p.data.pos_x - b.pos_x)
          + (p.data.pos_z - b.pos_z) * (p.data.pos_z - b.pos_z))
        * BOBBA_KNOCKBACK_FORCE)
      + ((p.data.pos_z - b.pos_z)
        / env.sqrtQ ((p.data.pos_x - b.pos_x) * (p.data.pos_x - b.pos_x)
          + (p.data.pos_z - b.pos_z) * (p.data.pos_z - b.pos_z))
        * BOBBA_KNOCKBACK_FORCE)
      * ((p.data.pos_z - b.pos_z)
        / env.sqrtQ ((p.data.pos_x - b.pos_x) * (p.data.pos_x - b.pos_x)
          + (p.data.pos_z - b.pos_z) * (p.data.pos_z - b.pos_z))
        * BOBBA_KNOCKBACK_FORCE)
      = BOBBA_KNOCKBACK_FORCE * BOBBA_KNOCKBACK_FORCE := by
  constructor
  · apply runAttack_before_hit env p deltas s b hmp hact hstun hstate hflag hstart
      ?_ hpid hfind hdist hlen hde ?_
    · rw [htimer]
      unfold BOBBA_ATTACK_DURATION
      norm_num
    · rw [htimer]
      unfold BOBBA_ATTACK_DURATION at hsum ⊢
      linarith
  · have hL0 : (0:ℚ) < env.sqrtQ ((p.data.pos_x - b.pos_x) * (p.data.pos_x - b.pos_x)
        + (p.data.pos_z - b.pos_z) * (p.data.pos_z - b.pos_z)) :=
      lt_trans (by norm_num) hlen
    have hLne := ne_of_gt hL0
    generalize hg : env.sqrtQ ((p.data.pos_x - b.pos_x) * (p.data.pos_x - b.pos_x)
      + (p.data.pos_z - b.pos_z) * (p.data.pos_z - b.pos_z)) = L at hsq hLne ⊢
    rw [knockback_sq _ _ _ _ hLne, ← hsq, div_self (mul_ne_zero hLne hLne), mul_one]

/-- C7 witness: the sample attacking Bobba at the origin against player 1
standing three units away, run with four ticks of half a second. -/
theorem c7_attack_cycle_one_hit_witness :
    BOBBA_ATTACK_DURATION < ([1/2, 1/2, 1/2, 1/2] : List ℚ).sum ∧
    (runAttack env0 attackState (bobbaAt 100 false) [1/2, 1/2, 1/2, 1/2]).2.2
      = [hitSend env0 attackState (bobbaAt 100 false) player1] := by
  have hsum : BOBBA_ATTACK_DURATION < ([1/2, 1/2, 1/2, 1/2] : List ℚ).sum := by
    norm_num [BOBBA_ATTACK_DURATION, List.sum_cons, List.sum_nil]
  refine ⟨hsum, ?_⟩
  exact (c7_attack_cycle_one_hit env0 attackState (bobbaAt 100 false) player1
    [1/2, 1/2, 1/2, 1/2] rfl rfl (by norm_num [bobbaAt]) rfl rfl rfl rfl
    (by decide) (by decide)
    (by norm_num [distance_3d, env0, ratSqrt, bobbaAt, player1, pdata,
      BOBBA_ATTACK_DISTANCE, Rat.num_ofNat, Rat.den_ofNat,
      show Int.toNat 9 = 9 from rfl])
    (by norm_num [env0, ratSqrt, bobbaAt, player1, pdata,
      Rat.num_ofNat, Rat.den_ofNat, show Int.toNat 9 = 9 from rfl])
    (by norm_num [env0, ratSqrt, bobbaAt, player1, pdata,
      Rat.num_ofNat, Rat.den_ofNat, show Int.toNat 9 = 9 from rfl])
    (by
      intro d hd
      simp only [List.mem_cons, List.not_mem_nil, or_false, or_self] at hd
      subst hd
      norm_num)
    hsum).1

end LoB
